import Mathlib

/-!
Verification of the batch-inference web service (`app.py`).

The development shallowly embeds the request handlers of the Flask
application: the `/predict` upload pipeline (format gate, parse,
identifier extraction, feature alignment, model invocation, recompose,
persist), the `/download` handler and the `/logout` handler, together
with the process-wide model/schema state loaded at start-up.

Tables are embedded as ordered lists of named columns (mirroring the
pandas `DataFrame` operations the source actually uses); the fitted
model is an opaque function from a table to either a prediction row
list or an error message, mirroring `model.predict` which may raise.
Python truthiness tests (`if feature_cols:`, `if expected and ...`,
`if not out_name:`) are translated exactly, since several properties
hinge on them.
-/

/-- A pandas DataFrame as used by the source: an ordered sequence of
named columns, each column an ordered sequence of cell values
(cells kept as strings; their contents are opaque to the pipeline). -/
structure Frame where
  cols : List (String × List String)
deriving DecidableEq

namespace Frame

/-- `df.columns`. -/
def columns (df : Frame) : List String := df.cols.map Prod.fst

/-- `df[n]`: the first column named `n`, if any. -/
def getCol (df : Frame) (n : String) : Option (List String) :=
  (df.cols.find? (fun p => p.1 == n)).map Prod.snd

/-- `df.drop(columns=[n], errors="ignore")`. -/
def dropCol (df : Frame) (n : String) : Frame :=
  ⟨df.cols.filter (fun p => p.1 != n)⟩

/-- `df[names]`: select the named columns, in the order of `names`
(in the source this is only evaluated after every name was checked
to be present). -/
def select (df : Frame) (names : List String) : Frame :=
  ⟨names.filterMap (fun n => (df.getCol n).map (fun v => (n, v)))⟩

/-- `df.shape[1]`. -/
def ncols (df : Frame) : Nat := df.cols.length

end Frame

/-- `pd.DataFrame(preds, columns=names)`: rows become columns under the
given names; column `j` collects entry `j` of every row. -/
def frameOfRows (names : List String) (rows : List (List String)) : Frame :=
  ⟨names.enum.map (fun p => (p.2, rows.map (fun r => r.getD p.1 "")))⟩

/-- The fitted model artifact: the optional `n_features_in_` attribute
read by `getattr(model, "n_features_in_", None)`, and `model.predict`,
which either returns one output row per input row or raises (modelled
as an error message). -/
structure ModelFn where
  nFeaturesIn : Option Nat
  run : Frame → Except String (List (List String))

/-- The process-wide state loaded at start-up: `model`, `target_cols`
and `feature_cols` (each `None` when its pickle failed to load /
was absent). -/
structure ModelEnv where
  model : Option ModelFn
  targetCols : Option (List String)
  featureCols : Option (List String)

/-- `ALLOWED_EXTENSIONS = {".csv"}`. -/
def ALLOWED_EXTENSIONS : List String := [".csv"]

/-- Index of the last `.` in the character list, if any. -/
def lastDotIndex (cs : List Char) : Option Nat :=
  ((cs.enum.filter (fun p => p.2 == '.')).map Prod.fst).getLast?

/-- The extension part of `os.path.splitext` for a bare file name
(no directory separators): the suffix starting at the last dot,
provided some character before that dot is not itself a dot
(leading dots never start an extension). -/
def splitextExt (p : String) : String :=
  match lastDotIndex p.data with
  | none => ""
  | some i =>
      if (p.data.take i).any (fun c => c != '.') then ⟨p.data.drop i⟩ else ""

/-- `str.lower()`: lower-case every character. -/
def strLower (s : String) : String := ⟨s.data.map Char.toLower⟩

/-- `allowed_file`: the lower-cased extension is in the allow-list. -/
def allowedFile (filename : String) : Bool :=
  ALLOWED_EXTENSIONS.contains (strLower (splitextExt filename))

/-- The persisted result name `f"predictions_{ts}.csv"`, where `ts` is
the second-resolution timestamp string
`datetime.now().strftime("%Y%m%d_%H%M%S")`. -/
def outName (ts : String) : String := "predictions_" ++ ts ++ ".csv"

/-- An uploaded file: its declared filename and the outcome of
`pd.read_csv` on its content (a parse error or a table). -/
structure Upload where
  filename : String
  content : Except String Frame

/-- The result of the feature-alignment block (source lines 139-147). -/
inductive AlignResult where
  | ok (X : Frame)
  | missing (missing : List String)
  | countMismatch (expected actual : Nat)
deriving DecidableEq

/-- The degraded branch (no truthy `feature_cols`): compare the column
count to `n_features_in_` when the latter is truthy
(`if expected and X.shape[1] != expected`). -/
def alignDegraded (nIn : Option Nat) (X : Frame) : AlignResult :=
  match nIn with
  | some e => if e ≠ 0 ∧ X.ncols ≠ e then .countMismatch e X.ncols else .ok X
  | none => .ok X

/-- Feature alignment: `if feature_cols:` (truthy = present and
non-empty) compute `missing = [c for c in feature_cols if c not in
X.columns]`; a non-empty `missing` aborts, otherwise `X = X[feature_cols]`.
A falsy `feature_cols` falls through to the count-only check. -/
def align (featureCols : Option (List String)) (nIn : Option Nat)
    (X : Frame) : AlignResult :=
  match featureCols with
  | some fc =>
      if fc.isEmpty then alignDegraded nIn X
      else
        if fc.filter (fun c => decide (c ∉ X.columns)) ≠ [] then
          .missing (fc.filter (fun c => decide (c ∉ X.columns)))
        else .ok (X.select fc)
  | none => alignDegraded nIn X

/-- The rendered outcome of one POST to `/predict`, one constructor per
distinct terminal message of the handler. `error` is the catch-all
`except Exception` branch (parse failures, model failures, recompose
failures). -/
inductive Outcome where
  | noFile
  | invalidFile
  | modelNotLoaded
  | missingFeatures (missing : List String)
  | featureCountMismatch (expected actual : Nat)
  | error (msg : String)
  | success (rows : Nat) (name : String)
deriving DecidableEq

/-- Observable result of one POST to `/predict`: the rendered outcome
plus the request's side effects — whether the upload was saved, whether
a parse was attempted, the table the model was invoked on (if any),
how many times the model was invoked, the persisted result file (name
and table, if any), and the session's `last_prediction_csv` pointer
after the request (given its value before). -/
structure PredictResult where
  outcome : Outcome
  fileSaved : Bool
  parseAttempted : Bool
  modelInput : Option Frame
  modelCalls : Nat
  resultWritten : Option (String × Frame)
  pointerAfter : Option String
deriving DecidableEq

/-- The POST branch of the `/predict` handler (source lines 121-164).
`auth` is whether `"user_id" in session` (the authorization flag from
the login collaborator); `ptr` is the session's `last_prediction_csv`
before the request; `ts` is the request's timestamp string. -/
def predictReq (env : ModelEnv) (ts : String) (req : Option Upload)
    (_auth : Bool) (ptr : Option String) : PredictResult :=
  match req with
  | none => ⟨.noFile, false, false, none, 0, none, ptr⟩
  | some file =>
    if file.filename = "" ∨ allowedFile file.filename = false then
      ⟨.invalidFile, false, false, none, 0, none, ptr⟩
    else
      match env.model, env.targetCols with
      | some mdl, some targetCols =>
        match file.content with
        | .error e => ⟨.error e, true, true, none, 0, none, ptr⟩
        | .ok df =>
          let ids := if "ID" ∈ df.columns then df.getCol "ID" else none
          let X := df.dropCol "ID"
          match align env.featureCols mdl.nFeaturesIn X with
          | .missing m => ⟨.missingFeatures m, true, true, none, 0, none, ptr⟩
          | .countMismatch e a =>
              ⟨.featureCountMismatch e a, true, true, none, 0, none, ptr⟩
          | .ok Xa =>
            match mdl.run Xa with
            | .error e => ⟨.error e, true, true, some Xa, 1, none, ptr⟩
            | .ok preds =>
              let predDf := frameOfRows targetCols preds
              match ids with
              | some v =>
                if v.length = preds.length then
                  ⟨.success preds.length (outName ts), true, true, some Xa, 1,
                    some (outName ts, ⟨("ID", v) :: predDf.cols⟩),
                    some (outName ts)⟩
                else
                  ⟨.error "Length of values does not match length of index",
                    true, true, some Xa, 1, none, ptr⟩
              | none =>
                ⟨.success preds.length (outName ts), true, true, some Xa, 1,
                  some (outName ts, predDf), some (outName ts)⟩
      | _, _ => ⟨.modelNotLoaded, false, false, none, 0, none, ptr⟩

/-- The Flask session: `user_id`, `username`, `last_prediction_csv`. -/
structure Session where
  userId : Option Nat
  username : Option String
  lastPredictionCsv : Option String
deriving DecidableEq

/-- The body of a `/download` response. -/
inductive DownloadOutcome where
  | noPredictions
  | fileNotFound
  | fileResponse (name : String)
deriving DecidableEq

/-- Result of a GET to `/download`: the body, the HTTP status and the
session afterwards. -/
structure DownloadResult where
  outcome : DownloadOutcome
  status : Nat
  sessionAfter : Session
deriving DecidableEq

/-- The `/download` handler (source lines 166-174): `if not out_name`
(absent or empty) is the 400 branch, a pointer whose file is not in
storage is the 404 branch, otherwise `send_file` (status 200). The
handler only reads the session. -/
def download (sess : Session) (storage : List String) : DownloadResult :=
  match sess.lastPredictionCsv with
  | none => ⟨.noPredictions, 400, sess⟩
  | some n =>
      if n = "" then ⟨.noPredictions, 400, sess⟩
      else if n ∈ storage then ⟨.fileResponse n, 200, sess⟩
      else ⟨.fileNotFound, 404, sess⟩

/-- The `/logout` handler (source lines 111-114): `session.clear()`. -/
def logout (_s : Session) : Session := ⟨none, none, none⟩

/-! ### Concrete instances used by witnesses and counterexamples

These realise the worked example of the specification: expected
features `[x1, x2]`, target `[y]`, model `predict([x1,x2]) = [x1+x2]`
on the two rows `(ID=1, x1=2, x2=3)` and `(ID=2, x1=5, x2=5)`. -/

/-- A concrete fitted model for the spec's worked example. -/
def demoModel : ModelFn := ⟨some 2, fun _ => .ok [["5"], ["10"]]⟩

/-- Start-up state with the demo model, target list `[y]` and feature
list `[x1, x2]`. -/
def demoEnv : ModelEnv := ⟨some demoModel, some ["y"], some ["x1", "x2"]⟩

/-- The spec's example upload: columns `[ID, x1, x2]`. -/
def demoUpload : Upload :=
  ⟨"data.csv", .ok ⟨[("ID", ["1", "2"]), ("x1", ["2", "5"]), ("x2", ["3", "5"])]⟩⟩

/-- A second, different upload (the same rows with `x1`/`x2` swapped). -/
def demoUpload2 : Upload :=
  ⟨"other.csv", .ok ⟨[("ID", ["1", "2"]), ("x2", ["3", "5"]), ("x1", ["2", "5"])]⟩⟩

/-- A model whose `n_features_in_` attribute is `0`. -/
def zeroFeatModel : ModelFn := ⟨some 0, fun _ => .ok [["1"]]⟩

/-- Degraded start-up state (no feature-column artifact) whose model
reports `n_features_in_ = 0`. -/
def degradedEnv0 : ModelEnv := ⟨some zeroFeatModel, some ["y"], none⟩

/-- Degraded start-up state (no feature-column artifact) around the
demo model, whose `n_features_in_` is `2`. -/
def degradedEnv2 : ModelEnv := ⟨some demoModel, some ["y"], none⟩

/-- A model whose `predict` always raises. -/
def failModel : ModelFn := ⟨some 2, fun _ => .error "boom"⟩

/-- Start-up state around the always-raising model. -/
def failEnv : ModelEnv := ⟨some failModel, some ["y"], some ["x1", "x2"]⟩

/-- A model with no `n_features_in_` attribute. -/
def noCountModel : ModelFn := ⟨none, fun _ => .ok [["0"]]⟩

/-- Start-up state whose feature-column artifact loaded as an empty
list, around a model with no feature count. -/
def emptyFcEnv : ModelEnv := ⟨some noCountModel, some ["y"], some []⟩

/-- A one-column upload `x1 = [1]`. -/
def oneColUpload : Upload := ⟨"d.csv", .ok ⟨[("x1", ["1"])]⟩⟩

/-- An upload with an `ID` column and only `x1` of the two expected
feature columns. -/
def missingColUpload : Upload := ⟨"d.csv", .ok ⟨[("ID", ["1"]), ("x1", ["2"])]⟩⟩

/-! ### Helper lemmas -/

theorem outName_inj (a b : String) (h : outName a = outName b) : a = b := by
  unfold outName at h
  have h2 := congrArg String.data h
  simp only [String.data_append] at h2
  exact String.ext (List.append_cancel_left (List.append_cancel_right h2))

theorem outName_ne_empty (ts : String) : outName ts ≠ "" := by
  intro h
  have h2 := congrArg String.data h
  simp [outName, String.data_append] at h2

namespace Frame

theorem getCol_isSome_of_mem (df : Frame) (c : String)
    (h : c ∈ df.columns) : (df.getCol c).isSome := by
  unfold columns at h
  rcases List.mem_map.mp h with ⟨p, hp, hpc⟩
  have hf : (df.cols.find? (fun q => q.1 == c)).isSome :=
    List.find?_isSome.mpr ⟨p, hp, by simp [hpc]⟩
  rcases Option.isSome_iff_exists.mp hf with ⟨q, hq⟩
  unfold getCol
  rw [hq]
  rfl

theorem select_columns (df : Frame) (ns : List String)
    (h : ∀ c ∈ ns, c ∈ df.columns) : (df.select ns).columns = ns := by
  induction ns with
  | nil => rfl
  | cons c cs ih =>
    have hc := getCol_isSome_of_mem df c (h c (List.mem_cons_self _ _))
    rcases Option.isSome_iff_exists.mp hc with ⟨v, hv⟩
    have ihh := ih (fun x hx => h x (List.mem_cons_of_mem _ hx))
    simp only [select, columns, List.filterMap_cons, hv, Option.map_some',
      List.map_cons] at ihh ⊢
    simpa using ihh

theorem mem_select_columns (df : Frame) (ns : List String) (c : String)
    (h : c ∈ (df.select ns).columns) : c ∈ df.columns := by
  simp only [select, columns] at h
  rcases List.mem_map.mp h with ⟨p, hp, hpc⟩
  rcases List.mem_filterMap.mp hp with ⟨n, hn, hf⟩
  rcases Option.map_eq_some'.mp hf with ⟨v, hv, hpv⟩
  simp only [getCol] at hv
  rcases Option.map_eq_some'.mp hv with ⟨q, hq, hqv⟩
  have hqmem := List.mem_of_find?_eq_some hq
  have hqpred := List.find?_some hq
  have hqn : q.1 = n := by simpa using hqpred
  have hcq : c = q.1 := by rw [hqn, ← hpc, ← hpv]
  exact hcq ▸ List.mem_map.mpr ⟨q, hqmem, rfl⟩

theorem not_mem_dropCol_columns (df : Frame) (n : String) :
    n ∉ (df.dropCol n).columns := by
  simp only [dropCol, columns]
  intro h
  rcases List.mem_map.mp h with ⟨p, hp, hpc⟩
  have := (List.mem_filter.mp hp).2
  simp [hpc] at this

end Frame

theorem alignDegraded_ok (nIn : Option Nat) (X Xa : Frame)
    (h : alignDegraded nIn X = .ok Xa) : Xa = X := by
  cases nIn with
  | none =>
      simp only [alignDegraded] at h
      injection h with h
      exact h.symm
  | some e =>
      simp only [alignDegraded] at h
      by_cases hc : e ≠ 0 ∧ X.ncols ≠ e
      · rw [if_pos hc] at h
        exact AlignResult.noConfusion h
      · rw [if_neg hc] at h
        injection h with h
        exact h.symm

theorem align_ok_no_id (fc : Option (List String)) (nIn : Option Nat)
    (df : Frame) (Xa : Frame)
    (h : align fc nIn (df.dropCol "ID") = .ok Xa) : "ID" ∉ Xa.columns := by
  cases fc with
  | none =>
      simp only [align] at h
      rw [alignDegraded_ok nIn _ Xa h]
      exact Frame.not_mem_dropCol_columns df "ID"
  | some fcl =>
      simp only [align] at h
      by_cases he : fcl.isEmpty = true
      · rw [if_pos he] at h
        rw [alignDegraded_ok nIn _ Xa h]
        exact Frame.not_mem_dropCol_columns df "ID"
      · rw [if_neg he] at h
        by_cases hm : fcl.filter (fun c => decide (c ∉ (df.dropCol "ID").columns)) ≠ []
        · rw [if_pos hm] at h
          exact AlignResult.noConfusion h
        · rw [if_neg hm] at h
          injection h with h
          rw [← h]
          intro hmem
          exact Frame.not_mem_dropCol_columns df "ID"
            (Frame.mem_select_columns _ fcl "ID" hmem)

theorem predictReq_written_spec (env : ModelEnv) (ts : String)
    (req : Option Upload) (auth : Bool) (ptr : Option String) :
    ((predictReq env ts req auth ptr).resultWritten = none ∧
      (predictReq env ts req auth ptr).pointerAfter = ptr) ∨
    (∃ f, (predictReq env ts req auth ptr).resultWritten = some (outName ts, f) ∧
      (predictReq env ts req auth ptr).pointerAfter = some (outName ts)) := by
  cases req with
  | none => exact Or.inl ⟨rfl, rfl⟩
  | some file =>
    simp only [predictReq]
    repeat' first
      | exact Or.inl ⟨rfl, rfl⟩
      | exact Or.inr ⟨_, rfl, rfl⟩
      | split

/-! ### Claims -/

/-- C1 (counterexample): a concrete, well-formed prediction request from
an unauthorized caller (authorization flag `false`) is not aborted with
an authorization error: the upload is saved, a parse is attempted, the
model is invoked, and the request succeeds. -/
theorem c1_counterexample :
    (predictReq demoEnv "20240101_000000" (some demoUpload) false none).fileSaved = true ∧
    (predictReq demoEnv "20240101_000000" (some demoUpload) false none).parseAttempted = true ∧
    (predictReq demoEnv "20240101_000000" (some demoUpload) false none).modelCalls = 1 ∧
    (predictReq demoEnv "20240101_000000" (some demoUpload) false none).outcome
      = Outcome.success 2 (outName "20240101_000000") :=
  ⟨rfl, rfl, rfl, rfl⟩

/-- C1 (amended): the `/predict` handler performs no authorization check
at all: its outcome and every side effect are identical whether the
caller's authorization flag is true or false. -/
theorem c1_predict_ignores_authorization (env : ModelEnv) (ts : String)
    (req : Option Upload) (ptr : Option String) :
    predictReq env ts req true ptr = predictReq env ts req false ptr := rfl

/-- C2: when the expected feature-column list is loaded and at least one
expected column is absent from the working table, the request aborts
with the MissingFeatures outcome listing the missing columns, the model
is never invoked, no result is persisted and the session pointer is
unchanged. -/
theorem c2_missing_features_aborts (env : ModelEnv) (mdl : ModelFn)
    (tc fc : List String) (ts fn : String) (df : Frame) (auth : Bool)
    (ptr : Option String)
    (hgate : ¬(fn = "" ∨ allowedFile fn = false))
    (hm : env.model = some mdl) (htc : env.targetCols = some tc)
    (hfc : env.featureCols = some fc)
    (hmiss : fc.filter (fun c => decide (c ∉ (df.dropCol "ID").columns)) ≠ []) :
    (predictReq env ts (some ⟨fn, .ok df⟩) auth ptr).outcome
      = Outcome.missingFeatures
          (fc.filter (fun c => decide (c ∉ (df.dropCol "ID").columns))) ∧
    (predictReq env ts (some ⟨fn, .ok df⟩) auth ptr).modelCalls = 0 ∧
    (predictReq env ts (some ⟨fn, .ok df⟩) auth ptr).resultWritten = none ∧
    (predictReq env ts (some ⟨fn, .ok df⟩) auth ptr).pointerAfter = ptr := by
  have hfcne : fc.isEmpty = false := by
    cases fc with
    | nil => simp at hmiss
    | cons a l => rfl
  have hal : align env.featureCols mdl.nFeaturesIn (df.dropCol "ID")
      = .missing (fc.filter (fun c => decide (c ∉ (df.dropCol "ID").columns))) := by
    rw [hfc]
    simp only [align]
    rw [if_neg (by simp [hfcne]), if_pos hmiss]
  have key : predictReq env ts (some ⟨fn, .ok df⟩) auth ptr
      = ⟨.missingFeatures
            (fc.filter (fun c => decide (c ∉ (df.dropCol "ID").columns))),
          true, true, none, 0, none, ptr⟩ := by
    unfold predictReq
    dsimp only
    rw [if_neg hgate, hm, htc]
    dsimp only
    rw [hal]
  rw [key]
  exact ⟨rfl, rfl, rfl, rfl⟩

/-- C2 (witness): the spec's example — expected features x1, x2, upload
has only ID and x1 — aborts with MissingFeatures [x2], zero model
calls, nothing written. -/
theorem c2_missing_features_aborts_witness :
    (predictReq demoEnv "t" (some missingColUpload) true none).outcome
      = Outcome.missingFeatures ["x2"] ∧
    (predictReq demoEnv "t" (some missingColUpload) true none).modelCalls = 0 ∧
    (predictReq demoEnv "t" (some missingColUpload) true none).resultWritten = none ∧
    (predictReq demoEnv "t" (some missingColUpload) true none).pointerAfter = none := by
  have h := c2_missing_features_aborts demoEnv demoModel ["y"] ["x1", "x2"] "t"
    "d.csv" ⟨[("ID", ["1"]), ("x1", ["2"])]⟩ true none (by decide) rfl rfl rfl
    (by decide)
  exact h

/-- C3 (counterexample): the feature-column list can be present yet
empty; then the upload's columns are a superset of the expected list,
but no selection/reordering happens — the model receives the upload's
extra column instead of exactly the (empty) expected column sequence. -/
theorem c3_counterexample :
    emptyFcEnv.featureCols = some [] ∧
    (predictReq emptyFcEnv "t" (some oneColUpload) true none).modelInput
      = some ⟨[("x1", ["1"])]⟩ ∧
    (Frame.mk [("x1", ["1"])]).columns ≠ [] :=
  ⟨rfl, rfl, by decide⟩

/-- C3 (amended): when the expected feature-column list is present and
non-empty and no expected column is missing from the working table, the
table handed to the model is exactly the selection of the expected
columns: its column names equal the expected list, in that order, with
any extra upload columns dropped. -/
theorem c3_model_receives_expected_order (env : ModelEnv) (mdl : ModelFn)
    (tc fc : List String) (ts fn : String) (df : Frame) (auth : Bool)
    (ptr : Option String)
    (hgate : ¬(fn = "" ∨ allowedFile fn = false))
    (hm : env.model = some mdl) (htc : env.targetCols = some tc)
    (hfc : env.featureCols = some fc) (hfcne : fc ≠ [])
    (hnomiss : fc.filter (fun c => decide (c ∉ (df.dropCol "ID").columns)) = []) :
    (predictReq env ts (some ⟨fn, .ok df⟩) auth ptr).modelInput
      = some ((df.dropCol "ID").select fc) ∧
    ((df.dropCol "ID").select fc).columns = fc := by
  have hal : align env.featureCols mdl.nFeaturesIn (df.dropCol "ID")
      = .ok ((df.dropCol "ID").select fc) := by
    rw [hfc]
    simp only [align]
    rw [if_neg (by simp [List.isEmpty_iff, hfcne]), if_neg (fun h2 => h2 hnomiss)]
  constructor
  · unfold predictReq
    dsimp only
    rw [if_neg hgate, hm, htc]
    dsimp only
    rw [hal]
    dsimp only
    repeat' split
    all_goals rfl
  · apply Frame.select_columns
    intro c hc
    have := List.filter_eq_nil_iff.mp hnomiss c hc
    simpa using this

/-- C3 (witness): the spec's swapped-columns example — upload columns
ID, x2, x1 with expected list x1, x2 — reaches the model as the
selection with columns exactly x1, x2. -/
theorem c3_model_receives_expected_order_witness :
    (predictReq demoEnv "t" (some demoUpload2) true none).modelInput
      = some ⟨[("x1", ["2", "5"]), ("x2", ["3", "5"])]⟩ ∧
    (Frame.mk [("x1", ["2", "5"]), ("x2", ["3", "5"])]).columns = ["x1", "x2"] := by
  have h := c3_model_receives_expected_order demoEnv demoModel ["y"] ["x1", "x2"]
    "t" "other.csv" ⟨[("ID", ["1", "2"]), ("x2", ["3", "5"]), ("x1", ["2", "5"])]⟩
    true none (by decide) rfl rfl rfl (by decide) (by decide)
  exact h

/-- C4: for a request that reaches a successful prediction from an
upload with an ID column, the persisted table is the prediction table
with the input's ID column re-attached as its first column,
value-for-value in row order; and the aligned table the model was
invoked on contains no ID column. -/
theorem c4_id_column_roundtrip (env : ModelEnv) (mdl : ModelFn)
    (tc : List String) (ts fn : String) (df Xa : Frame) (v : List String)
    (preds : List (List String)) (auth : Bool) (ptr : Option String)
    (hgate : ¬(fn = "" ∨ allowedFile fn = false))
    (hm : env.model = some mdl) (htc : env.targetCols = some tc)
    (hid : "ID" ∈ df.columns) (hv : df.getCol "ID" = some v)
    (hal : align env.featureCols mdl.nFeaturesIn (df.dropCol "ID") = .ok Xa)
    (hrun : mdl.run Xa = .ok preds) (hlen : v.length = preds.length) :
    (predictReq env ts (some ⟨fn, .ok df⟩) auth ptr).resultWritten
      = some (outName ts, ⟨("ID", v) :: (frameOfRows tc preds).cols⟩) ∧
    "ID" ∉ Xa.columns := by
  constructor
  · unfold predictReq
    dsimp only
    rw [if_neg hgate, hm, htc]
    dsimp only
    rw [hal]
    dsimp only
    rw [hrun]
    dsimp only
    rw [if_pos hid, hv]
    dsimp only
    rw [if_pos hlen]
  · exact align_ok_no_id env.featureCols mdl.nFeaturesIn df Xa hal

/-- C4 (witness): the spec's worked example — upload ID, x1, x2 with
rows (1,2,3) and (2,5,5) — persists the table with first column
ID = [1, 2] and the model never saw the ID column. -/
theorem c4_id_column_roundtrip_witness :
    (predictReq demoEnv "t" (some demoUpload) true none).resultWritten
      = some (outName "t",
          ⟨("ID", ["1", "2"]) :: (frameOfRows ["y"] [["5"], ["10"]]).cols⟩) ∧
    "ID" ∉ (Frame.mk [("x1", ["2", "5"]), ("x2", ["3", "5"])]).columns := by
  have h := c4_id_column_roundtrip demoEnv demoModel ["y"] "t" "data.csv"
    ⟨[("ID", ["1", "2"]), ("x1", ["2", "5"]), ("x2", ["3", "5"])]⟩
    ⟨[("x1", ["2", "5"]), ("x2", ["3", "5"])]⟩ ["1", "2"] [["5"], ["10"]]
    true none (by decide) rfl rfl (by decide) rfl (by decide) rfl rfl
  exact h

/-- C5 (counterexample): two distinct successful requests (different
uploads, even different filenames) issued in the same second persist
their results under the same filename — the name is not unique per
request. -/
theorem c5_counterexample :
    demoUpload.filename ≠ demoUpload2.filename ∧
    (predictReq demoEnv "20240101_000000" (some demoUpload) true none).resultWritten
      = some (outName "20240101_000000", ⟨[("ID", ["1", "2"]), ("y", ["5", "10"])]⟩) ∧
    (predictReq demoEnv "20240101_000000" (some demoUpload2) true none).resultWritten
      = some (outName "20240101_000000", ⟨[("ID", ["1", "2"]), ("y", ["5", "10"])]⟩) :=
  ⟨by decide, rfl, rfl⟩

/-- C5 (amended): the persisted filename is determined by (and only by)
the request's second-resolution timestamp: two successful requests with
distinct timestamp strings persist under distinct filenames, while two
requests in the same second share one filename. -/
theorem c5_distinct_timestamps_distinct_names (env1 env2 : ModelEnv)
    (ts1 ts2 : String) (req1 req2 : Option Upload) (a1 a2 : Bool)
    (p1 p2 : Option String) (n1 n2 : String) (f1 f2 : Frame)
    (h1 : (predictReq env1 ts1 req1 a1 p1).resultWritten = some (n1, f1))
    (h2 : (predictReq env2 ts2 req2 a2 p2).resultWritten = some (n2, f2))
    (hts : ts1 ≠ ts2) : n1 ≠ n2 := by
  rcases predictReq_written_spec env1 ts1 req1 a1 p1 with ⟨hn, -⟩ | ⟨f, hw, -⟩
  · rw [h1] at hn
    exact absurd hn (by simp)
  · rcases predictReq_written_spec env2 ts2 req2 a2 p2 with ⟨hn2, -⟩ | ⟨g, hw2, -⟩
    · rw [h2] at hn2
      exact absurd hn2 (by simp)
    · have e1 : n1 = outName ts1 :=
        congrArg Prod.fst (Option.some.inj (h1.symm.trans hw))
      have e2 : n2 = outName ts2 :=
        congrArg Prod.fst (Option.some.inj (h2.symm.trans hw2))
      rw [e1, e2]
      intro he
      exact hts (outName_inj _ _ he)

/-- C5 (witness): two successful demo requests one second apart persist
under different filenames. -/
theorem c5_distinct_timestamps_distinct_names_witness :
    outName "20240101_000000" ≠ outName "20240101_000001" :=
  c5_distinct_timestamps_distinct_names demoEnv demoEnv
    "20240101_000000" "20240101_000001" (some demoUpload) (some demoUpload)
    true true none none (outName "20240101_000000") (outName "20240101_000001")
    ⟨[("ID", ["1", "2"]), ("y", ["5", "10"])]⟩
    ⟨[("ID", ["1", "2"]), ("y", ["5", "10"])]⟩ rfl rfl (by decide)

/-- C6: the download handler distinguishes its two failure causes — a
session with no recorded pointer gets the "no predictions" outcome with
status 400, while a session whose recorded (prediction-produced, hence
non-empty) pointer names a file absent from storage gets the distinct
"file not found" outcome with status 404. -/
theorem c6_download_distinguishes (s1 s2 : Session) (storage : List String)
    (ts : String)
    (h1 : s1.lastPredictionCsv = none)
    (h2 : s2.lastPredictionCsv = some (outName ts))
    (hmem : outName ts ∉ storage) :
    (download s1 storage).outcome = DownloadOutcome.noPredictions ∧
    (download s1 storage).status = 400 ∧
    (download s2 storage).outcome = DownloadOutcome.fileNotFound ∧
    (download s2 storage).status = 404 ∧
    DownloadOutcome.noPredictions ≠ DownloadOutcome.fileNotFound := by
  have hd1 : download s1 storage = ⟨.noPredictions, 400, s1⟩ := by
    unfold download
    rw [h1]
  have hd2 : download s2 storage = ⟨.fileNotFound, 404, s2⟩ := by
    unfold download
    rw [h2]
    dsimp only
    rw [if_neg (outName_ne_empty ts), if_neg hmem]
  rw [hd1, hd2]
  exact ⟨rfl, rfl, rfl, rfl, by simp⟩

/-- C6 (witness): a fresh session downloads to 400 "no predictions"; a
session pointing at a deleted result file downloads to 404. -/
theorem c6_download_distinguishes_witness :
    (download ⟨some 1, some "u", none⟩ []).outcome
      = DownloadOutcome.noPredictions ∧
    (download ⟨some 1, some "u", none⟩ []).status = 400 ∧
    (download ⟨some 1, some "u", some (outName "20240101_000000")⟩ []).outcome
      = DownloadOutcome.fileNotFound ∧
    (download ⟨some 1, some "u", some (outName "20240101_000000")⟩ []).status = 404 ∧
    DownloadOutcome.noPredictions ≠ DownloadOutcome.fileNotFound := by
  have h := c6_download_distinguishes ⟨some 1, some "u", none⟩
    ⟨some 1, some "u", some (outName "20240101_000000")⟩ [] "20240101_000000"
    rfl rfl (by simp)
  exact h

/-- C7 (counterexample): the logout endpoint mutates the session's
result pointer — it clears the whole session, so a previously recorded
pointer does not survive logout. -/
theorem c7_counterexample :
    (logout ⟨some 1, some "u", some (outName "t")⟩).lastPredictionCsv
      ≠ (Session.mk (some 1) (some "u") (some (outName "t"))).lastPredictionCsv := by
  intro h
  exact Option.noConfusion (h.trans rfl)

/-- C7 (amended): the session's last-prediction pointer is written only
by a successful prediction: a prediction request that persists no
result leaves the pointer unchanged, the download handler returns the
session unmodified, and logout clears the entire session — pointer
included, consistent with the pointer living only as long as the
session. -/
theorem c7_pointer_frame (env : ModelEnv) (ts : String) (req : Option Upload)
    (auth : Bool) (ptr : Option String) (sess : Session) (storage : List String)
    (h : (predictReq env ts req auth ptr).resultWritten = none) :
    (predictReq env ts req auth ptr).pointerAfter = ptr ∧
    (download sess storage).sessionAfter = sess ∧
    (logout sess).lastPredictionCsv = none := by
  refine ⟨?_, ?_, rfl⟩
  · rcases predictReq_written_spec env ts req auth ptr with ⟨-, hp⟩ | ⟨f, hw, -⟩
    · exact hp
    · rw [h] at hw
      exact Option.noConfusion hw
  · unfold download
    rcases sess.lastPredictionCsv with - | n
    · rfl
    · dsimp only
      by_cases hn : n = ""
      · rw [if_pos hn]
      · rw [if_neg hn]
        by_cases hs : n ∈ storage
        · rw [if_pos hs]
        · rw [if_neg hs]

/-- C7 (witness): a rejected request (no file field) leaves the pointer
as it was, download leaves the session intact, logout clears the
pointer. -/
theorem c7_pointer_frame_witness :
    (predictReq demoEnv "t" none true (some "p")).pointerAfter = some "p" ∧
    (download ⟨some 1, some "u", some (outName "t")⟩ []).sessionAfter
      = ⟨some 1, some "u", some (outName "t")⟩ ∧
    (logout ⟨some 1, some "u", some (outName "t")⟩).lastPredictionCsv = none :=
  c7_pointer_frame demoEnv "t" none true (some "p")
    ⟨some 1, some "u", some (outName "t")⟩ [] rfl

/-- C8 (counterexample): an expected feature count can be present yet
zero; then an upload whose column count (1) differs from the expected
count (0) is not rejected — the model is invoked and the request
succeeds instead of aborting with FeatureCountMismatch. -/
theorem c8_counterexample :
    degradedEnv0.featureCols = none ∧
    zeroFeatModel.nFeaturesIn = some 0 ∧
    (Frame.mk [("x1", ["1"])]).ncols ≠ 0 ∧
    (predictReq degradedEnv0 "t" (some oneColUpload) true none).modelCalls = 1 ∧
    (predictReq degradedEnv0 "t" (some oneColUpload) true none).outcome
      = Outcome.success 1 (outName "t") :=
  ⟨rfl, rfl, by decide, rfl, rfl⟩

/-- C8 (amended): in degraded mode (no feature-column list) with a
present and NON-ZERO expected feature count: a working table whose
column count differs from the expected count aborts with
FeatureCountMismatch carrying the expected and actual counts, before
any model invocation and with nothing persisted; a matching count
proceeds with no reordering — the model receives the working table
exactly as it is. -/
theorem c8_degraded_count_check (env : ModelEnv) (mdl : ModelFn)
    (tc : List String) (ts fn : String) (df : Frame) (auth : Bool)
    (ptr : Option String) (e : Nat)
    (hgate : ¬(fn = "" ∨ allowedFile fn = false))
    (hm : env.model = some mdl) (htc : env.targetCols = some tc)
    (hfc : env.featureCols = none) (hn : mdl.nFeaturesIn = some e)
    (he : e ≠ 0) :
    ((df.dropCol "ID").ncols ≠ e →
      (predictReq env ts (some ⟨fn, .ok df⟩) auth ptr).outcome
        = Outcome.featureCountMismatch e (df.dropCol "ID").ncols ∧
      (predictReq env ts (some ⟨fn, .ok df⟩) auth ptr).modelCalls = 0 ∧
      (predictReq env ts (some ⟨fn, .ok df⟩) auth ptr).resultWritten = none) ∧
    ((df.dropCol "ID").ncols = e →
      (predictReq env ts (some ⟨fn, .ok df⟩) auth ptr).modelInput
        = some (df.dropCol "ID")) := by
  constructor
  · intro hne
    have hal : align env.featureCols mdl.nFeaturesIn (df.dropCol "ID")
        = .countMismatch e (df.dropCol "ID").ncols := by
      rw [hfc, hn]
      simp only [align, alignDegraded]
      rw [if_pos ⟨he, hne⟩]
    have key : predictReq env ts (some ⟨fn, .ok df⟩) auth ptr
        = ⟨.featureCountMismatch e (df.dropCol "ID").ncols,
            true, true, none, 0, none, ptr⟩ := by
      unfold predictReq
      dsimp only
      rw [if_neg hgate, hm, htc]
      dsimp only
      rw [hal]
    rw [key]
    exact ⟨rfl, rfl, rfl⟩
  · intro heq
    have hal : align env.featureCols mdl.nFeaturesIn (df.dropCol "ID")
        = .ok (df.dropCol "ID") := by
      rw [hfc, hn]
      simp only [align, alignDegraded]
      rw [if_neg (fun hc => hc.2 heq)]
    unfold predictReq
    dsimp only
    rw [if_neg hgate, hm, htc]
    dsimp only
    rw [hal]
    dsimp only
    repeat' split
    all_goals rfl

/-- C8 (witness): the demo model expects 2 features; a one-column upload
in degraded mode aborts with FeatureCountMismatch 2 1, zero model
calls, nothing written. -/
theorem c8_degraded_count_check_witness :
    (predictReq degradedEnv2 "t" (some oneColUpload) true none).outcome
      = Outcome.featureCountMismatch 2 1 ∧
    (predictReq degradedEnv2 "t" (some oneColUpload) true none).modelCalls = 0 ∧
    (predictReq degradedEnv2 "t" (some oneColUpload) true none).resultWritten = none := by
  have h := c8_degraded_count_check degradedEnv2 demoModel ["y"] "t" "d.csv"
    ⟨[("x1", ["1"])]⟩ true none 2 (by decide) rfl rfl rfl rfl (by decide)
  exact h.1 (by decide)

/-- C9: when a request reaches model invocation and the model raises,
the exception is caught inside the request and surfaced as the terminal
error outcome carrying the message — the handler still returns a
rendered response (no unhandled fault), nothing is persisted and the
session pointer is unchanged. -/
theorem c9_model_error_caught (env : ModelEnv) (mdl : ModelFn)
    (tc : List String) (ts fn msg : String) (df Xa : Frame) (auth : Bool)
    (ptr : Option String)
    (hgate : ¬(fn = "" ∨ allowedFile fn = false))
    (hm : env.model = some mdl) (htc : env.targetCols = some tc)
    (hal : align env.featureCols mdl.nFeaturesIn (df.dropCol "ID") = .ok Xa)
    (hrun : mdl.run Xa = .error msg) :
    (predictReq env ts (some ⟨fn, .ok df⟩) auth ptr).outcome
      = Outcome.error msg ∧
    (predictReq env ts (some ⟨fn, .ok df⟩) auth ptr).resultWritten = none ∧
    (predictReq env ts (some ⟨fn, .ok df⟩) auth ptr).pointerAfter = ptr := by
  have key : predictReq env ts (some ⟨fn, .ok df⟩) auth ptr
      = ⟨.error msg, true, true, some Xa, 1, none, ptr⟩ := by
    unfold predictReq
    dsimp only
    rw [if_neg hgate, hm, htc]
    dsimp only
    rw [hal]
    dsimp only
    rw [hrun]
  rw [key]
  exact ⟨rfl, rfl, rfl⟩

/-- C9 (witness): a model that raises "boom" on the demo upload yields
the error outcome carrying "boom", with nothing persisted and the
pointer unchanged. -/
theorem c9_model_error_caught_witness :
    (predictReq failEnv "t" (some demoUpload) true none).outcome
      = Outcome.error "boom" ∧
    (predictReq failEnv "t" (some demoUpload) true none).resultWritten = none ∧
    (predictReq failEnv "t" (some demoUpload) true none).pointerAfter = none := by
  have h := c9_model_error_caught failEnv failModel ["y"] "t" "data.csv" "boom"
    ⟨[("ID", ["1", "2"]), ("x1", ["2", "5"]), ("x2", ["3", "5"])]⟩
    ⟨[("x1", ["2", "5"]), ("x2", ["3", "5"])]⟩ true none
    (by decide) rfl rfl (by decide) rfl
  exact h

/-- C10: a feature-column list loaded as a present-but-empty sequence is
indistinguishable from an absent one: for every request the whole
pipeline produces the identical result — same outcome, same side
effects — as with no feature-column list at all. -/
theorem c10_empty_feature_list_like_absent (m : Option ModelFn)
    (tc : Option (List String)) (ts : String) (req : Option Upload)
    (auth : Bool) (ptr : Option String) :
    predictReq ⟨m, tc, some []⟩ ts req auth ptr
      = predictReq ⟨m, tc, none⟩ ts req auth ptr := rfl
